import Mathlib

set_option maxHeartbeats 1000000

/-!
Shallow embedding of the respondbridge webhook service (src/app.py).

Conventions of the embedding:
* Machine integers and epoch-millisecond timestamps are modelled as `Int`.
* `datetime` values are represented by the epoch milliseconds they were
  built from; `datetime.fromtimestamp(t / 1000)` is an order-isomorphic
  injection, so a stored datetime is represented by `t` itself, and every
  call of `datetime.now()` is the explicit parameter `now`.
* A Python dict field that may be missing (or null) is an `Option`;
  `d.get(k, default)` is `Option.getD`.
* Python truthiness on strings (None/"" falsy) and on numbers (None/0
  falsy) is made explicit by the helpers below.
* The MongoDB collections are modelled as maps; `update_one` with `$set`
  on a unique `_id` is replacement at that key.
-/

/-- Python truthiness test on an optional integer field: `not x` is true
exactly when the field is absent/None or equal to 0. -/
def pyFalsyId : Option Int → Bool
  | none => true
  | some n => n == 0

/-- Python `str()` applied to an optional integer (`str(None) = "None"`). -/
def strOfOptInt : Option Int → String
  | none => "None"
  | some n => toString n

/-- Python truthiness of an optional string: truthy iff present and non-empty. -/
def truthyStr : Option String → Bool
  | none => false
  | some s => s != ""

/-- Python truthiness of an optional integer: truthy iff present and nonzero. -/
def truthyInt : Option Int → Bool
  | none => false
  | some n => n != 0

/-- `datetime.fromtimestamp(timestamp / 1000) if timestamp else datetime.now()`
(app.py lines 150 and 251): the timestamp value when truthy, else now. -/
def tsOrNow (timestamp : Option Int) (now : Int) : Int :=
  match timestamp with
  | some t => if t = 0 then now else t
  | none => now

/-! ## Webhook payload shapes (the dicts read by app.py) -/

/-- The nested `message.message.attachment` object. -/
structure Attachment where
  type : Option String
  url : Option String
  fileName : Option String
  mimeType : Option String
  size : Option Int
  ext : Option String
  description : Option String
  deriving DecidableEq

def Attachment.empty : Attachment :=
  { type := none, url := none, fileName := none, mimeType := none
    size := none, ext := none, description := none }

/-- The inner `message.message` content object. Location coordinates are
carried opaquely as integers (their values are never computed with). -/
structure InnerMessage where
  type : Option String
  text : Option String
  attachment : Option Attachment
  url : Option String
  filename : Option String
  latitude : Option Int
  longitude : Option Int
  address : Option String
  messageTag : Option String
  deriving DecidableEq

def InnerMessage.empty : InnerMessage :=
  { type := none, text := none, attachment := none, url := none
    filename := none, latitude := none, longitude := none
    address := none, messageTag := none }

/-- The top-level `message` object of a message webhook. The entries of the
provider `status` array are carried opaquely as strings. -/
structure MessagePart where
  messageId : Option Int
  channelMessageId : Option Int
  timestamp : Option Int
  message : Option InnerMessage
  status : List String
  deriving DecidableEq

def MessagePart.empty : MessagePart :=
  { messageId := none, channelMessageId := none, timestamp := none
    message := none, status := [] }

/-- The top-level `channel` object. -/
structure Channel where
  id : Option Int
  name : Option String
  source : Option String
  lastMessageTime : Option Int
  lastIncomingMessageTime : Option Int
  deriving DecidableEq

def Channel.empty : Channel :=
  { id := none, name := none, source := none
    lastMessageTime := none, lastIncomingMessageTime := none }

/-- The optional `user` object of an outgoing message webhook. -/
structure User where
  id : Option Int
  email : Option String
  firstName : Option String
  lastName : Option String
  role : Option String
  deriving DecidableEq

/-- The top-level `contact` object. `assignee` is `some` exactly when the
key is present in the dict (the code tests membership, not truthiness). -/
structure Contact where
  id : Option Int
  phone : Option String
  firstName : Option String
  lastName : Option String
  email : Option String
  language : Option String
  profilePic : Option String
  countryCode : Option String
  status : Option String
  assignee : Option String
  tags : List String
  deriving DecidableEq

def Contact.empty : Contact :=
  { id := none, phone := none, firstName := none, lastName := none
    email := none, language := none, profilePic := none
    countryCode := none, status := none, assignee := none, tags := [] }

/-- A whole webhook payload as consumed by the processor. -/
structure WebhookData where
  contact : Option Contact
  message : Option MessagePart
  channel : Option Channel
  event_type : Option String
  event_id : Option String
  user : Option User
  source : Option String
  lifecycle : Option String
  oldLifecycle : Option String
  deriving DecidableEq

def WebhookData.empty : WebhookData :=
  { contact := none, message := none, channel := none, event_type := none
    event_id := none, user := none, source := none
    lifecycle := none, oldLifecycle := none }

/-- Traffic type tag passed to process_webhook. -/
inductive TrafficType where
  | incoming
  | outgoing
  deriving DecidableEq

/-! ## extract_media_type (app.py lines 69-82) -/

/-- `WebhookProcessor.extract_media_type`: extract the media type used for
conversation-level media counting from the top-level message object. -/
def extract_media_type (message_data : MessagePart) : Option String :=
  let msg := message_data.message.getD InnerMessage.empty
  let msg_type := msg.type.getD "text"
  if msg_type = "attachment" then
    some ((msg.attachment.getD Attachment.empty).type.getD "file")
  else if msg_type = "image" ∨ msg_type = "video" ∨ msg_type = "document" ∨
      msg_type = "file" ∨ msg_type = "audio" then
    some msg_type
  else if msg_type = "media" then
    some "media"
  else
    none

example :
    extract_media_type { MessagePart.empty with
      message := some { InnerMessage.empty with type := some "image" } } =
      some "image" := by decide

example :
    extract_media_type { MessagePart.empty with
      message := some { InnerMessage.empty with
        type := some "attachment"
        attachment := some { Attachment.empty with type := some "video" } } } =
      some "video" := by decide

example :
    extract_media_type { MessagePart.empty with
      message := some { InnerMessage.empty with type := some "location" } } =
      none := by decide

example : extract_media_type MessagePart.empty = none := by decide

/-! ## Stored document shapes -/

/-- The `sender_info` dict of a message document: its shape depends on the
traffic direction and on whether an acting user was supplied (app.py
lines 118-144). -/
inductive SenderInfo where
  | contactInfo (phone : String) (contact_id : Option Int) (name : String)
  | userInfo (id : Option Int) (email : Option String)
      (firstName : Option String) (lastName : Option String)
      (role : Option String)
  | sourceInfo (source : String)
  deriving DecidableEq

/-- The embedded `attachment` dict of a message document (app.py 178-186). -/
structure AttachmentDoc where
  type : String
  url : Option String
  fileName : Option String
  mimeType : Option String
  size : Option Int
  ext : Option String
  description : String
  deriving DecidableEq

/-- The embedded `location` dict of a message document (app.py 198-202). -/
structure LocationDoc where
  latitude : Option Int
  longitude : Option Int
  address : Option String
  deriving DecidableEq

/-- A document of the messages collection, minus its `_id` (the `_id` is the
key under which the document is stored). An `Option` field that the code
sets only inside a conditional branch is `none` when the branch is not
taken (the key is then absent from the dict). -/
structure MessageDoc where
  chat_id : String
  ts : Int
  sender : String
  sender_info : SenderInfo
  type : String
  message_type : String
  channel_message_id : Option Int
  contact_id : Option Int
  channel_id : Option Int
  channel_name : Option String
  channel_source : Option String
  status : List String
  event_type : Option String
  event_id : Option String
  source : Option String
  created_at : Int
  raw_message : InnerMessage
  message_tag : Option String
  attachment : Option AttachmentDoc
  image_url : Option String
  video_url : Option String
  document_url : Option String
  filename : Option String
  audio_url : Option String
  location : Option LocationDoc
  deriving DecidableEq

/-- The `contact` sub-document of a conversation. The lifecycle entry is
doubly optional: the outer `Option` is key presence in the dict (the code
tests `'lifecycle' in existing_contact`), the inner one is the stored
value, which itself may be null. -/
structure ContactSnapshot where
  id : Option Int
  firstName : Option String
  lastName : Option String
  email : Option String
  phone : Option String
  language : Option String
  profilePic : Option String
  countryCode : Option String
  status : Option String
  lifecycle : Option (Option String)
  deriving DecidableEq

/-- The `channel_info` sub-document of a conversation (app.py 333-339). -/
structure ChannelInfo where
  id : Option Int
  name : Option String
  source : Option String
  lastMessageTime : Option Int
  lastIncomingMessageTime : Option Int
  deriving DecidableEq

/-- A document of the conversations collection, minus its `_id` (the
conversation key under which it is stored). `media_counts` is a dict from
media type to count, kept as an association list with distinct keys. -/
structure ConversationDoc where
  created_at : Int
  first_message_ts : Int
  last_message_ts : Int
  message_count : Nat
  media_counts : List (String × Nat)
  updated_at : Int
  channel : List String
  contact : ContactSnapshot
  channel_info : ChannelInfo
  assignee : Option String
  deriving DecidableEq

/-- One entry of a contact's lifecycle history (app.py 411-416). -/
structure LifecycleChange where
  fromL : Option String
  toL : Option String
  timestamp : Int
  event_id : Option String
  deriving DecidableEq

/-- A document of the contacts collection, minus its `_id`. -/
structure ContactDoc where
  phone : String
  firstName : Option String
  lastName : Option String
  email : Option String
  language : Option String
  profilePic : Option String
  countryCode : Option String
  status : Option String
  lifecycle : Option String
  tags : List String
  updated_at : Int
  assignee : Option String
  lifecycle_history : List LifecycleChange
  deriving DecidableEq

/-! ## Store model -/

/-- The messages collection: documents written with an explicit `_id` (the
stringified provider message id) live in the keyed association list, on
which `update_one(..., upsert=True)` against the unique `_id` index acts;
documents inserted without an `_id` (provider id absent) are appended to
the unkeyed list, each receiving a fresh generated id. -/
structure MessagesStore where
  keyed : List (String × MessageDoc)
  unkeyed : List MessageDoc
  deriving DecidableEq

def MessagesStore.empty : MessagesStore := { keyed := [], unkeyed := [] }

/-- The conversations collection, keyed by conversation key (`_id`). -/
def ConvStore : Type := String → Option ConversationDoc

/-- The contacts collection, keyed by stringified contact id (`_id`). -/
def ContactsStore : Type := String → Option ContactDoc

def emptyConvStore : ConvStore := fun _ => none

def emptyContactsStore : ContactsStore := fun _ => none

/-- `update_one({'_id': k}, {'$set': doc}, upsert=True)` against the unique
`_id` index: replace the (unique) matching entry, or append a new one. -/
def upsertDoc : List (String × MessageDoc) → String → MessageDoc →
    List (String × MessageDoc)
  | [], k, d => [(k, d)]
  | (k', d') :: rest, k, d =>
    if k' = k then (k, d) :: rest else (k', d') :: upsertDoc rest k d

/-- How many stored documents carry the given `_id`. -/
def countKey (l : List (String × MessageDoc)) (k : String) : Nat :=
  l.countP (fun p => p.1 == k)

/-- The document stored under the given `_id`, if any. -/
def lookupKey (l : List (String × MessageDoc)) (k : String) :
    Option MessageDoc :=
  (l.find? (fun p => p.1 == k)).map Prod.snd

/-- Python `media_counts[k] = media_counts.get(k, 0) + 1` on a dict kept as
an association list: bump the entry in place or add it at the end. -/
def mediaIncr : List (String × Nat) → String → List (String × Nat)
  | [], k => [(k, 1)]
  | (k', v) :: rest, k =>
    if k' = k then (k', v + 1) :: rest else (k', v) :: mediaIncr rest k

/-- `media_counts.get(k, 0)`. -/
def mediaGet (l : List (String × Nat)) (k : String) : Nat :=
  match l.find? (fun p => p.1 == k) with
  | some p => p.2
  | none => 0

/-- Sum of the values of the media-count dict. -/
def sumVals (l : List (String × Nat)) : Nat :=
  (l.map Prod.snd).sum

/-! ## Conversation aggregation (app.py lines 248-363) -/

/-- Which store operations raise an exception during one task. Used to model
the try/except structure of the code; the all-false record is the normal
run. -/
structure StoreFaults where
  msgWriteFails : Bool
  convReadFails : Bool
  convWriteFails : Bool
  deriving DecidableEq

def noFaults : StoreFaults :=
  { msgWriteFails := false, convReadFails := false, convWriteFails := false }

/-- The `update_doc` branch of `update_conversation` for an existing
conversation (app.py lines 256-308): the resulting document after the
`$set`. Fields absent from `update_doc` keep their existing values. -/
def applyMessageDelta (existing : ConversationDoc) (contact : Contact)
    (channel : Channel) (media_type : Option String)
    (ts_datetime now : Int) : ConversationDoc :=
  { existing with
    updated_at := now
    last_message_ts := ts_datetime
    message_count := existing.message_count + 1
    media_counts :=
      if truthyStr media_type then
        mediaIncr existing.media_counts (media_type.getD "")
      else existing.media_counts
    channel :=
      if truthyStr channel.name then
        if existing.channel.contains (channel.name.getD "") then
          existing.channel
        else existing.channel ++ [channel.name.getD ""]
      else existing.channel
    contact :=
      { id := contact.id
        firstName := contact.firstName
        lastName := contact.lastName
        email := contact.email
        phone := contact.phone
        language := contact.language
        profilePic := contact.profilePic
        countryCode := contact.countryCode
        status := contact.status
        lifecycle := existing.contact.lifecycle }
    assignee :=
      match contact.assignee with
      | some a => some a
      | none => existing.assignee }

/-- The `conversation_doc` built for a conversation that does not exist yet
(app.py lines 311-352). -/
def newConversationDoc (contact : Contact) (channel : Channel)
    (media_type : Option String) (ts_datetime now : Int) : ConversationDoc :=
  { created_at := now
    first_message_ts := ts_datetime
    last_message_ts := ts_datetime
    message_count := 1
    media_counts :=
      if truthyStr media_type then [(media_type.getD "", 1)] else []
    updated_at := now
    channel :=
      if truthyStr channel.name then [channel.name.getD ""] else []
    contact :=
      { id := contact.id
        firstName := contact.firstName
        lastName := contact.lastName
        email := contact.email
        phone := contact.phone
        language := contact.language
        profilePic := contact.profilePic
        countryCode := contact.countryCode
        status := contact.status
        lifecycle := none }
    channel_info :=
      { id := channel.id
        name := channel.name
        source := channel.source
        lastMessageTime := channel.lastMessageTime
        lastIncomingMessageTime := channel.lastIncomingMessageTime }
    assignee := contact.assignee }

/-- `WebhookProcessor.update_conversation` with explicit store faults: the
whole body runs inside try/except, so a failing find or write leaves the
store unchanged and the function still returns normally. -/
def update_conversation_x (f : StoreFaults) (convs : ConvStore)
    (chat_id : String) (contact : Contact) (channel : Channel)
    (media_type : Option String) (timestamp : Option Int) (now : Int) :
    ConvStore :=
  let ts_datetime := tsOrNow timestamp now
  if f.convReadFails then convs
  else
    match convs chat_id with
    | some existing =>
      if f.convWriteFails then convs
      else fun k =>
        if k = chat_id then
          some (applyMessageDelta existing contact channel media_type
            ts_datetime now)
        else convs k
    | none =>
      if f.convWriteFails then convs
      else fun k =>
        if k = chat_id then
          some (newConversationDoc contact channel media_type ts_datetime now)
        else convs k

/-- `WebhookProcessor.update_conversation` on a normal run. -/
def update_conversation (convs : ConvStore) (chat_id : String)
    (contact : Contact) (channel : Channel) (media_type : Option String)
    (timestamp : Option Int) (now : Int) : ConvStore :=
  update_conversation_x noFaults convs chat_id contact channel media_type
    timestamp now

/-! ## Message normalization and storage (app.py lines 84-246) -/

/-- The `message_doc` dict built by `process_webhook` (app.py lines
110-202), minus its `_id`. -/
def build_message_doc (wd : WebhookData) (traffic_type : TrafficType)
    (chat_id : String) (now : Int) : MessageDoc :=
  let contact := wd.contact.getD Contact.empty
  let message := wd.message.getD MessagePart.empty
  let channel := wd.channel.getD Channel.empty
  let message_content := message.message.getD InnerMessage.empty
  let message_type := message_content.type.getD "text"
  let phone := contact.phone.getD ""
  let sender_pair : String × SenderInfo :=
    match traffic_type with
    | TrafficType.incoming =>
      (chat_id, SenderInfo.contactInfo phone contact.id
        (((contact.firstName.getD "") ++ " " ++ (contact.lastName.getD "")).trim))
    | TrafficType.outgoing =>
      match wd.user with
      | some user =>
        (user.email.getD "system",
          SenderInfo.userInfo user.id user.email user.firstName
            user.lastName user.role)
      | none =>
        let src := wd.source.getD "system"
        (src, SenderInfo.sourceInfo src)
  { chat_id := chat_id
    ts := tsOrNow message.timestamp now
    sender := sender_pair.1
    sender_info := sender_pair.2
    type := message_type
    message_type :=
      match traffic_type with
      | TrafficType.incoming => "incoming"
      | TrafficType.outgoing => "outgoing"
    channel_message_id := message.channelMessageId
    contact_id := contact.id
    channel_id := channel.id
    channel_name := channel.name
    channel_source := channel.source
    status := message.status
    event_type := wd.event_type
    event_id := wd.event_id
    source := wd.source
    created_at := now
    raw_message := message_content
    message_tag := message_content.messageTag
    attachment :=
      if message_type = "attachment" then
        let a := message_content.attachment.getD Attachment.empty
        some { type := a.type.getD "file"
               url := a.url
               fileName := a.fileName
               mimeType := a.mimeType
               size := a.size
               ext := a.ext
               description := a.description.getD "" }
      else none
    image_url :=
      if message_type = "image" ∧ message_content.url.isSome then
        message_content.url
      else none
    video_url :=
      if message_type = "video" ∧ message_content.url.isSome then
        message_content.url
      else none
    document_url :=
      if message_type = "document" ∧ message_content.url.isSome then
        message_content.url
      else none
    filename :=
      if message_type = "document" ∧ message_content.url.isSome then
        message_content.filename
      else none
    audio_url :=
      if message_type = "audio" ∧ message_content.url.isSome then
        message_content.url
      else none
    location :=
      if message_type = "location" then
        some { latitude := message_content.latitude
               longitude := message_content.longitude
               address := message_content.address }
      else none }

/-- Result of `process_webhook`. `chatKey` is a ghost observable exposing
the internally derived conversation key (`none` when the identity guard
drops the event before a key is derived). -/
structure WebhookResult where
  ok : Bool
  messages : MessagesStore
  convs : ConvStore
  chatKey : Option String

/-- `WebhookProcessor.process_webhook` with explicit store faults. A raised
message-write exception propagates to the outer try/except, so the
function returns False with the stores untouched; `update_conversation`
swallows its own faults, so they never affect the return value. -/
def process_webhook_x (f : StoreFaults) (wd : WebhookData)
    (traffic_type : TrafficType) (ms : MessagesStore) (convs : ConvStore)
    (now : Int) : WebhookResult :=
  let contact := wd.contact.getD Contact.empty
  let message := wd.message.getD MessagePart.empty
  let channel := wd.channel.getD Channel.empty
  let phone := contact.phone.getD ""
  if (phone == "") && pyFalsyId contact.id then
    { ok := false, messages := ms, convs := convs, chatKey := none }
  else
    let chat_id := if phone = "" then strOfOptInt contact.id else phone
    if f.msgWriteFails then
      { ok := false, messages := ms, convs := convs, chatKey := some chat_id }
    else
      let message_doc := build_message_doc wd traffic_type chat_id now
      let ms' :=
        if truthyInt message.messageId then
          { ms with
            keyed := upsertDoc ms.keyed (strOfOptInt message.messageId)
              message_doc }
        else
          { ms with unkeyed := ms.unkeyed ++ [message_doc] }
      let media_type := extract_media_type message
      let convs' := update_conversation_x f convs chat_id contact channel
        media_type message.timestamp now
      { ok := true, messages := ms', convs := convs', chatKey := some chat_id }

/-- `WebhookProcessor.process_webhook` on a normal run. -/
def process_webhook (wd : WebhookData) (traffic_type : TrafficType)
    (ms : MessagesStore) (convs : ConvStore) (now : Int) : WebhookResult :=
  process_webhook_x noFaults wd traffic_type ms convs now

/-! ## Lifecycle processing (app.py lines 365-465) -/

/-- Result of `process_lifecycle_update`. `convMatched` reflects
`result.matched_count > 0` of the conversation update; `chatKey` is a
ghost observable exposing the derived conversation key. -/
structure LifecycleResult where
  ok : Bool
  contacts : ContactsStore
  convs : ConvStore
  convMatched : Bool
  chatKey : Option String

/-- `WebhookProcessor.process_lifecycle_update`: upsert the contact document
(`$set` of the profile fields and `$push` of one history entry), then
`$set` only `contact.lifecycle` and `updated_at` on the conversation,
without upsert. -/
def process_lifecycle_update (contacts : ContactsStore) (convs : ConvStore)
    (wd : WebhookData) (now : Int) : LifecycleResult :=
  let contact := wd.contact.getD Contact.empty
  let contact_id := contact.id
  let phone := contact.phone.getD ""
  let lifecycle := wd.lifecycle
  let old_lifecycle := wd.oldLifecycle
  let event_id := wd.event_id
  if pyFalsyId contact_id && (phone == "") then
    { ok := false, contacts := contacts, convs := convs
      convMatched := false, chatKey := none }
  else
    let chat_id := if phone = "" then strOfOptInt contact_id else phone
    let cid := strOfOptInt contact_id
    let lifecycle_change : LifecycleChange :=
      { fromL := old_lifecycle, toL := lifecycle, timestamp := now
        event_id := event_id }
    let contacts' : ContactsStore := fun k =>
      if k = cid then
        some
          { phone := phone
            firstName := contact.firstName
            lastName := contact.lastName
            email := contact.email
            language := contact.language
            profilePic := contact.profilePic
            countryCode := contact.countryCode
            status := contact.status
            lifecycle := lifecycle
            tags := contact.tags
            updated_at := now
            assignee :=
              match contact.assignee with
              | some a => some a
              | none => (contacts cid).bind ContactDoc.assignee
            lifecycle_history :=
              (((contacts cid).map ContactDoc.lifecycle_history).getD []) ++
                [lifecycle_change] }
      else contacts k
    let convMatched := (convs chat_id).isSome
    let convs' : ConvStore := fun k =>
      if k = chat_id then
        match convs chat_id with
        | some conv =>
          some { conv with
            updated_at := now
            contact := { conv.contact with lifecycle := some lifecycle } }
        | none => none
      else convs k
    { ok := true, contacts := contacts', convs := convs'
      convMatched := convMatched, chatKey := some chat_id }

/-! ## Circuit breaker (app.py lines 50-56 and 473-506) -/

def CIRCUIT_BREAKER_THRESHOLD : Nat := 10

def CIRCUIT_BREAKER_TIMEOUT : Int := 60

/-- Breaker state: the globals `circuit_breaker_failures` and
`circuit_breaker_last_failure` (initially 0 and 0). `time.time()` is
passed explicitly where the code reads the clock. -/
structure Breaker where
  failures : Nat
  lastFailure : Int
  deriving DecidableEq

def Breaker.init : Breaker := { failures := 0, lastFailure := 0 }

/-- `check_circuit_breaker`: returns whether the circuit is open together
with the (possibly reset) state. -/
def check_circuit_breaker (b : Breaker) (now : Int) : Bool × Breaker :=
  if now - b.lastFailure > CIRCUIT_BREAKER_TIMEOUT then
    (false, { b with failures := 0 })
  else
    (decide (b.failures ≥ CIRCUIT_BREAKER_THRESHOLD), b)

/-- `record_failure`. -/
def record_failure (b : Breaker) (now : Int) : Breaker :=
  { failures := b.failures + 1, lastFailure := now }

/-- `record_success`. -/
def record_success (b : Breaker) : Breaker :=
  if b.failures > 0 then { b with failures := b.failures - 1 } else b

/-- The breaker feedback step of `webhook_worker` (app.py lines 539-542). -/
def worker_outcome (success : Bool) (b : Breaker) (now : Int) : Breaker :=
  if success then record_success b else record_failure b now

/-! ## Serial message-delta sequences -/

/-- The arguments `update_conversation` receives for one message webhook. -/
structure MsgDelta where
  contact : Contact
  channel : Channel
  media_type : Option String
  timestamp : Option Int
  now : Int
  deriving DecidableEq

/-- Apply a serial sequence of message deltas for one conversation key. -/
def applyDeltas (convs : ConvStore) (key : String) (ds : List MsgDelta) :
    ConvStore :=
  ds.foldl
    (fun s d =>
      update_conversation s key d.contact d.channel d.media_type
        d.timestamp d.now)
    convs

/-! ## Basic lemmas about the embedding -/

theorem update_conversation_at_fresh (convs : ConvStore) (key : String)
    (c : Contact) (ch : Channel) (mt : Option String) (ts : Option Int)
    (now : Int) (h : convs key = none) :
    update_conversation convs key c ch mt ts now key =
      some (newConversationDoc c ch mt (tsOrNow ts now) now) := by
  simp [update_conversation, update_conversation_x, noFaults, h]

theorem update_conversation_at_existing (convs : ConvStore) (key : String)
    (c : Contact) (ch : Channel) (mt : Option String) (ts : Option Int)
    (now : Int) (e : ConversationDoc) (h : convs key = some e) :
    update_conversation convs key c ch mt ts now key =
      some (applyMessageDelta e c ch mt (tsOrNow ts now) now) := by
  simp [update_conversation, update_conversation_x, noFaults, h]

theorem sumVals_mediaIncr (l : List (String × Nat)) (k : String) :
    sumVals (mediaIncr l k) = sumVals l + 1 := by
  induction l with
  | nil => simp [mediaIncr, sumVals]
  | cons p rest ih =>
    obtain ⟨k', v⟩ := p
    by_cases h : k' = k
    · simp [mediaIncr, h, sumVals]
      omega
    · simp [mediaIncr, h, sumVals] at ih ⊢
      omega

theorem foldl_record_failure_failures (ts : List Int) (b : Breaker) :
    (ts.foldl record_failure b).failures = b.failures + ts.length := by
  induction ts generalizing b with
  | nil => simp
  | cons t rest ih =>
    simp only [List.foldl_cons]
    rw [ih (record_failure b t)]
    simp only [record_failure, List.length_cons]
    omega

theorem foldl_record_failure_last (ts : List Int) (b : Breaker) :
    (ts.foldl record_failure b).lastFailure =
      ts.getLast?.getD b.lastFailure := by
  induction ts generalizing b with
  | nil => simp
  | cons t rest ih =>
    have h := ih (record_failure b t)
    cases rest with
    | nil => simp [record_failure]
    | cons u us =>
      simp [List.foldl_cons] at h ⊢
      rw [h]
      simp [record_failure, List.getLast?]

/-! ## Claim C6: circuit breaker contract -/

/-- Claim C6: starting from failure count 0, after exactly 10 consecutive
record_failure calls (checked within the 60-second window of the last
failure) the breaker reports open; one record_success decrements the
failure count by exactly 1, never below 0, and leaves the breaker open
exactly while the count is still at least 10; and whenever more than 60
seconds have elapsed since the last recorded failure, the check resets
the count to 0 and reports closed. -/
theorem c6_circuit_breaker (ts : List Int) (checkNow : Int)
    (hlen : ts.length = 10)
    (hwin : checkNow - ts.getLast?.getD 0 ≤ 60) :
    (check_circuit_breaker (ts.foldl record_failure Breaker.init)
        checkNow).1 = true ∧
    (record_success (ts.foldl record_failure Breaker.init)).failures = 9 ∧
    (∀ b : Breaker, (record_success b).failures = b.failures - 1 ∧
      (record_success b).lastFailure = b.lastFailure) ∧
    (∀ (b : Breaker) (n : Int), n - b.lastFailure ≤ 60 →
      (check_circuit_breaker (record_success b) n).1 =
        decide (10 ≤ b.failures - 1)) ∧
    (∀ (b : Breaker) (n : Int), n - b.lastFailure > 60 →
      check_circuit_breaker b n = (false, { b with failures := 0 })) := by
  have hf : (ts.foldl record_failure Breaker.init).failures = 10 := by
    rw [foldl_record_failure_failures]
    simp [Breaker.init, hlen]
  have hl : (ts.foldl record_failure Breaker.init).lastFailure =
      ts.getLast?.getD 0 := by
    rw [foldl_record_failure_last]
    simp [Breaker.init]
  refine ⟨?_, ?_, ?_, ?_, ?_⟩
  · unfold check_circuit_breaker CIRCUIT_BREAKER_TIMEOUT
      CIRCUIT_BREAKER_THRESHOLD
    rw [if_neg (by omega)]
    simp [hf]
  · simp [record_success, hf]
  · intro b
    unfold record_success
    constructor
    · split
      · rfl
      · omega
    · split <;> rfl
  · intro b n h
    have h1 : (record_success b).lastFailure = b.lastFailure := by
      unfold record_success
      split <;> rfl
    have h2 : (record_success b).failures = b.failures - 1 := by
      unfold record_success
      split
      · rfl
      · omega
    unfold check_circuit_breaker CIRCUIT_BREAKER_TIMEOUT
      CIRCUIT_BREAKER_THRESHOLD
    rw [h1, h2, if_neg (by omega)]
  · intro b n h
    unfold check_circuit_breaker CIRCUIT_BREAKER_TIMEOUT
    rw [if_pos (by omega)]

/-- Witness for claim C6 at concrete inputs: ten failures recorded at times
1..10 and the check performed at time 60. -/
theorem c6_circuit_breaker_witness :
    ([1, 2, 3, 4, 5, 6, 7, 8, 9, 10] : List Int).length = 10 ∧
    (60 : Int) - ([1, 2, 3, 4, 5, 6, 7, 8, 9, 10] :
      List Int).getLast?.getD 0 ≤ 60 ∧
    (check_circuit_breaker
        (([1, 2, 3, 4, 5, 6, 7, 8, 9, 10] : List Int).foldl record_failure
          Breaker.init) 60).1 = true :=
  ⟨by decide, by decide,
    (c6_circuit_breaker [1, 2, 3, 4, 5, 6, 7, 8, 9, 10] 60 (by decide)
      (by decide)).1⟩

/-! ## Claim C8: extracted media type -/

/-- A location message payload, used to refute claim C8. -/
def locMessageC8 : MessagePart :=
  { MessagePart.empty with
    message := some { InnerMessage.empty with type := some "location" } }

/-- Claim C8 counterexample: the claim says every non-text message type
other than attachment and the simple media types yields the literal
"media", but a message of type "location" (non-text) yields None: only
the literal type "media" is mapped to "media". -/
theorem c8_counterexample :
    (locMessageC8.message.getD InnerMessage.empty).type = some "location" ∧
    extract_media_type locMessageC8 ≠ some "media" ∧
    extract_media_type locMessageC8 = none := by decide

/-- Claim C8 as amended: the extracted mediaType is None for plain text;
for type "attachment" it is the nested attachment object's type,
defaulting to "file"; for the simple media types image, video, document,
file and audio it is that type itself; for the literal type "media" it is
"media"; and for every other message type (location included) it is
None. -/
theorem c8_amended (md : MessagePart) (t : String)
    (ht : ((md.message.getD InnerMessage.empty).type.getD "text") = t) :
    (t = "text" → extract_media_type md = none) ∧
    (t = "attachment" →
      extract_media_type md =
        some (((md.message.getD InnerMessage.empty).attachment.getD
          Attachment.empty).type.getD "file")) ∧
    ((t = "image" ∨ t = "video" ∨ t = "document" ∨ t = "file" ∨
        t = "audio") →
      extract_media_type md = some t) ∧
    (t = "media" → extract_media_type md = some "media") ∧
    (t ≠ "text" → t ≠ "attachment" → t ≠ "media" →
      ¬(t = "image" ∨ t = "video" ∨ t = "document" ∨ t = "file" ∨
        t = "audio") →
      extract_media_type md = none) := by
  subst ht
  refine ⟨?_, ?_, ?_, ?_, ?_⟩
  · intro h
    simp [extract_media_type, h]
  · intro h
    simp [extract_media_type, h]
  · intro h
    have hna : ((md.message.getD InnerMessage.empty).type.getD "text") ≠
        "attachment" := by
      rcases h with h | h | h | h | h <;> rw [h] <;> decide
    simp only [extract_media_type]
    rw [if_neg hna, if_pos h]
  · intro h
    simp [extract_media_type, h]
  · intro _ h2 h3 h4
    simp only [extract_media_type]
    rw [if_neg h2, if_neg h4, if_neg h3]

/-- Witness for claim C8 (amended) at a concrete attachment payload with
nested type "video". -/
theorem c8_amended_witness :
    extract_media_type
      { MessagePart.empty with
        message := some { InnerMessage.empty with
          type := some "attachment"
          attachment :=
            some { Attachment.empty with type := some "video" } } } =
      some "video" :=
  ((c8_amended
    { MessagePart.empty with
      message := some { InnerMessage.empty with
        type := some "attachment"
        attachment :=
          some { Attachment.empty with type := some "video" } } }
    "attachment" rfl).2.1) rfl

/-! ## Claim C1: last_message_ts under out-of-order deltas -/

/-- Claim C1 counterexample: update_conversation writes the delta's
timestamp into last_message_ts unconditionally, so applying a delta with
timestamp 1000 to a conversation whose last_message_ts is 2000 moves the
timestamp backward, refuting the claim that it never moves backward. -/
theorem c1_counterexample :
    ((update_conversation emptyConvStore "c" Contact.empty Channel.empty
        none (some 2000) 0) "c").map ConversationDoc.last_message_ts =
      some 2000 ∧
    ((update_conversation
        (update_conversation emptyConvStore "c" Contact.empty Channel.empty
          none (some 2000) 0)
        "c" Contact.empty Channel.empty none (some 1000) 0) "c").map
      ConversationDoc.last_message_ts = some 1000 ∧
    (1000 : Int) < 2000 := by decide

/-- Claim C1 as amended: applying a message delta sets last_message_ts to
exactly the delta's timestamp, unconditionally, so it can move backward
when an older timestamp arrives later; for timestamps T1 < T2 < T3
arriving in order T2, T1, T3 the final last_message_ts equals T3 only
because T3 is applied last, while after applying T1 the value has
regressed to T1 (below the maximum T2 already seen). -/
theorem c1_amended (convs : ConvStore) (key : String) (c : Contact)
    (ch : Channel) (mt : Option String) (t1 t2 t3 now1 now2 now3 : Int)
    (h0 : 0 < t1) (h12 : t1 < t2) (h23 : t2 < t3)
    (hfresh : convs key = none) :
    ((update_conversation convs key c ch mt (some t2) now1) key).map
      ConversationDoc.last_message_ts = some t2 ∧
    ((update_conversation
        (update_conversation convs key c ch mt (some t2) now1)
        key c ch mt (some t1) now2) key).map
      ConversationDoc.last_message_ts = some t1 ∧
    ((update_conversation
        (update_conversation
          (update_conversation convs key c ch mt (some t2) now1)
          key c ch mt (some t1) now2)
        key c ch mt (some t3) now3) key).map
      ConversationDoc.last_message_ts = some t3 := by
  have ht1 : t1 ≠ 0 := by omega
  have ht2 : t2 ≠ 0 := by omega
  have ht3 : t3 ≠ 0 := by omega
  have e1 := update_conversation_at_fresh convs key c ch mt (some t2) now1
    hfresh
  rw [show tsOrNow (some t2) now1 = t2 by simp [tsOrNow, ht2]] at e1
  have e2 := update_conversation_at_existing
    (update_conversation convs key c ch mt (some t2) now1) key c ch mt
    (some t1) now2 _ e1
  rw [show tsOrNow (some t1) now2 = t1 by simp [tsOrNow, ht1]] at e2
  have e3 := update_conversation_at_existing
    (update_conversation
      (update_conversation convs key c ch mt (some t2) now1)
      key c ch mt (some t1) now2) key c ch mt (some t3) now3 _ e2
  rw [show tsOrNow (some t3) now3 = t3 by simp [tsOrNow, ht3]] at e3
  refine ⟨?_, ?_, ?_⟩
  · rw [e1]
    simp [newConversationDoc]
  · rw [e2]
    simp [applyMessageDelta]
  · rw [e3]
    simp [applyMessageDelta]

/-- Witness for claim C1 (amended) at concrete timestamps 100 < 200 < 300
arriving in order 200, 100, 300 on a fresh store. -/
theorem c1_amended_witness :
    (emptyConvStore "c" = none) ∧
    ((update_conversation
        (update_conversation emptyConvStore "c" Contact.empty Channel.empty
          none (some 200) 7)
        "c" Contact.empty Channel.empty none (some 100) 8) "c").map
      ConversationDoc.last_message_ts = some 100 :=
  ⟨rfl,
    (c1_amended emptyConvStore "c" Contact.empty Channel.empty none
      100 200 300 7 8 9 (by decide) (by decide) (by decide) rfl).2.1⟩

/-! ## Claim C2: message_count and media_counts over serial deltas -/

theorem sumVals_applyMessageDelta (e : ConversationDoc) (c : Contact)
    (ch : Channel) (mt : Option String) (t n : Int) :
    sumVals (applyMessageDelta e c ch mt t n).media_counts =
      sumVals e.media_counts + (if truthyStr mt then 1 else 0) := by
  by_cases h : truthyStr mt
  · simp [applyMessageDelta, h, sumVals_mediaIncr]
  · simp [applyMessageDelta, h]

theorem applyDeltas_existing (key : String) (ds : List MsgDelta) :
    ∀ (convs : ConvStore) (e : ConversationDoc), convs key = some e →
    ∃ doc, applyDeltas convs key ds key = some doc ∧
      doc.message_count = e.message_count + ds.length ∧
      sumVals doc.media_counts = sumVals e.media_counts +
        ds.countP (fun d => truthyStr d.media_type) := by
  induction ds with
  | nil =>
    intro convs e h
    exact ⟨e, by simpa [applyDeltas] using h, by simp, by simp⟩
  | cons d rest ih =>
    intro convs e h
    have e1 := update_conversation_at_existing convs key d.contact
      d.channel d.media_type d.timestamp d.now e h
    obtain ⟨doc, h1, h2, h3⟩ := ih
      (update_conversation convs key d.contact d.channel d.media_type
        d.timestamp d.now) _ e1
    refine ⟨doc, ?_, ?_, ?_⟩
    · simpa [applyDeltas, List.foldl_cons] using h1
    · rw [h2]
      simp [applyMessageDelta]
      omega
    · rw [h3, sumVals_applyMessageDelta, List.countP_cons]
      by_cases hm : truthyStr d.media_type <;> simp [hm] <;> omega

/-- Claim C2 counterexample: a single delta from scratch whose media type
is the empty string — non-null, hence by the claim it should be counted —
yields message_count 1 but a media-count mapping summing to 0, because
the code counts a media type only when it is truthy (non-null and
non-empty). -/
def emptyMediaDeltaC2 : MsgDelta :=
  { contact := Contact.empty
    channel := Channel.empty
    media_type := some ""
    timestamp := some 1000
    now := 0 }

theorem c2_counterexample :
    ((applyDeltas emptyConvStore "c" [emptyMediaDeltaC2]) "c").map
      (fun doc => (doc.message_count, sumVals doc.media_counts)) =
      some (1, 0) ∧
    ([emptyMediaDeltaC2].countP (fun d => d.media_type != none)) = 1 := by
  decide

/-- Claim C2 as amended: for every nonempty serial sequence of message
deltas on one key starting from no existing conversation, the resulting
message_count equals the number of deltas and the media-count values sum
to the number of deltas carrying a truthy (non-null and non-empty) media
type, hence at most message_count; a new conversation starts with
message_count 1 and, when the first delta's media type is truthy, that
type's count at 1. -/
theorem c2_amended (convs : ConvStore) (key : String)
    (hfresh : convs key = none) (d : MsgDelta) (ds : List MsgDelta) :
    ∃ doc, applyDeltas convs key (d :: ds) key = some doc ∧
      doc.message_count = (d :: ds).length ∧
      sumVals doc.media_counts =
        (d :: ds).countP (fun x => truthyStr x.media_type) ∧
      sumVals doc.media_counts ≤ (d :: ds).length ∧
      (ds = [] →
        doc.message_count = 1 ∧
        ∀ m, d.media_type = some m → m ≠ "" →
          mediaGet doc.media_counts m = 1) := by
  have e1 := update_conversation_at_fresh convs key d.contact d.channel
    d.media_type d.timestamp d.now hfresh
  obtain ⟨doc, h1, h2, h3⟩ := applyDeltas_existing key ds
    (update_conversation convs key d.contact d.channel d.media_type
      d.timestamp d.now) _ e1
  have hstep :
      applyDeltas convs key (d :: ds) key =
        applyDeltas
          (update_conversation convs key d.contact d.channel d.media_type
            d.timestamp d.now) key ds key := by
    simp [applyDeltas, List.foldl_cons]
  have hcount : doc.message_count = (d :: ds).length := by
    rw [h2]
    simp [newConversationDoc]
    omega
  have hsum : sumVals doc.media_counts =
      (d :: ds).countP (fun x => truthyStr x.media_type) := by
    rw [h3, List.countP_cons]
    by_cases hm : truthyStr d.media_type <;>
      simp [newConversationDoc, hm, sumVals] <;> omega
  refine ⟨doc, by rw [hstep]; exact h1, hcount, hsum, ?_, ?_⟩
  · rw [hsum]
    exact List.countP_le_length _
  · intro hnil
    subst hnil
    have hd : doc = newConversationDoc d.contact d.channel d.media_type
        (tsOrNow d.timestamp d.now) d.now := by
      have := h1
      simp [applyDeltas] at this
      rw [e1] at this
      exact (Option.some.injEq _ _).mp this.symm
    constructor
    · exact hcount
    · intro m hm hne
      rw [hd]
      have ht : truthyStr (some m) = true := by simp [truthyStr, hne]
      simp [newConversationDoc, hm, mediaGet, ht, List.find?]

/-- Witness for claim C2 (amended): one delta with media type "image" on a
fresh store gives message_count 1 and media counts summing to 1. -/
def imageDeltaC2 : MsgDelta :=
  { contact := Contact.empty
    channel := Channel.empty
    media_type := some "image"
    timestamp := some 1000
    now := 0 }

theorem c2_amended_witness :
    (emptyConvStore "c" = none) ∧
    ∃ doc, applyDeltas emptyConvStore "c" [imageDeltaC2] "c" = some doc ∧
      doc.message_count = 1 ∧
      sumVals doc.media_counts = 1 ∧
      mediaGet doc.media_counts "image" = 1 :=
  ⟨rfl, by
    obtain ⟨doc, h1, h2, h3, _, h5⟩ :=
      c2_amended emptyConvStore "c" rfl imageDeltaC2 []
    obtain ⟨h6, h7⟩ := h5 rfl
    exact ⟨doc, h1, h6, by simpa using h3, h7 "image" rfl (by decide)⟩⟩

/-! ## Claim C3: idempotent message storage -/

/-- The conversation key derived on lines 99-108 (and 375-388) of app.py:
the phone number when truthy, else the stringified contact id. -/
def derivedChatId (c : Contact) : String :=
  if c.phone.getD "" = "" then strOfOptInt c.id else c.phone.getD ""


theorem countKey_upsertDoc (l : List (String × MessageDoc)) (k : String)
    (d : MessageDoc) :
    countKey (upsertDoc l k d) k =
      if countKey l k = 0 then 1 else countKey l k := by
  induction l with
  | nil => simp [upsertDoc, countKey]
  | cons p rest ih =>
    obtain ⟨k', d'⟩ := p
    by_cases h : k' = k
    · subst h
      simp [upsertDoc, countKey, List.countP_cons]
    · simp only [upsertDoc, if_neg h]
      simp only [countKey, List.countP_cons] at ih ⊢
      have hk : (k' == k) = false := by
        simp [h]
      rw [ih, hk]
      simp

theorem lookupKey_upsertDoc (l : List (String × MessageDoc)) (k : String)
    (d : MessageDoc) :
    lookupKey (upsertDoc l k d) k = some d := by
  induction l with
  | nil => simp [upsertDoc, lookupKey, List.find?]
  | cons p rest ih =>
    obtain ⟨k', d'⟩ := p
    by_cases h : k' = k
    · subst h
      simp [upsertDoc, lookupKey, List.find?]
    · have hk : (k' == k) = false := by simp [h]
      simp only [upsertDoc, if_neg h]
      simp only [lookupKey, List.find?, hk] at ih ⊢
      exact ih

theorem upsertDoc_idem (l : List (String × MessageDoc)) (k : String)
    (d : MessageDoc) :
    upsertDoc (upsertDoc l k d) k d = upsertDoc l k d := by
  induction l with
  | nil => simp [upsertDoc]
  | cons p rest ih =>
    obtain ⟨k', d'⟩ := p
    by_cases h : k' = k
    · subst h
      simp [upsertDoc]
    · simp [upsertDoc, h, ih]

theorem unkeyed_upsert_unchanged (ms : MessagesStore) (k : String)
    (d : MessageDoc) :
    ({ ms with keyed := upsertDoc ms.keyed k d } : MessagesStore).unkeyed =
      ms.unkeyed := rfl

/-- Characterization of the messages store written by process_webhook when
the identity guard passes and the provider message id is truthy. -/
theorem process_webhook_messages (wd : WebhookData) (tt : TrafficType)
    (ms : MessagesStore) (cs : ConvStore) (now : Int)
    (hguard : ((((wd.contact.getD Contact.empty).phone.getD "") == "") &&
      pyFalsyId (wd.contact.getD Contact.empty).id) = false)
    (hmid : truthyInt (wd.message.getD MessagePart.empty).messageId = true) :
    (process_webhook wd tt ms cs now).ok = true ∧
    (process_webhook wd tt ms cs now).messages =
      { ms with
        keyed := upsertDoc ms.keyed
          (strOfOptInt (wd.message.getD MessagePart.empty).messageId)
          (build_message_doc wd tt
            (derivedChatId (wd.contact.getD Contact.empty)) now) } := by
  unfold process_webhook process_webhook_x noFaults derivedChatId
  simp [hguard, hmid]

/-- A message payload whose provider message id is present but zero, used
to refute claim C3: `str(message_id) if message_id else None` tests
Python truthiness, so the id 0 falls through to the id-less insert
path. -/
def wdZeroMsgIdC3 : WebhookData :=
  { WebhookData.empty with
    contact := some { Contact.empty with id := some 5, phone := some "p1" }
    message := some { MessagePart.empty with
      messageId := some 0
      timestamp := some 1000
      message := some { InnerMessage.empty with type := some "text" } } }

/-- Claim C3 counterexample: the claim quantifies over every payload with a
present provider message id, but at the present id 0 the code computes
`_id = None` (app.py line 148), pops `_id` and calls insert_one (lines
215-218), so processing the identical payload twice stores two message
documents instead of one: the upsert path is never reached and the write
is not idempotent there. -/
theorem c3_counterexample :
    (wdZeroMsgIdC3.message.getD MessagePart.empty).messageId = some 0 ∧
    (process_webhook wdZeroMsgIdC3 TrafficType.incoming
      (process_webhook wdZeroMsgIdC3 TrafficType.incoming
        MessagesStore.empty emptyConvStore 3).messages
      (process_webhook wdZeroMsgIdC3 TrafficType.incoming
        MessagesStore.empty emptyConvStore 3).convs
      3).messages.unkeyed.length = 2 ∧
    (process_webhook wdZeroMsgIdC3 TrafficType.incoming
      (process_webhook wdZeroMsgIdC3 TrafficType.incoming
        MessagesStore.empty emptyConvStore 3).messages
      (process_webhook wdZeroMsgIdC3 TrafficType.incoming
        MessagesStore.empty emptyConvStore 3).convs
      3).messages.keyed = [] := by decide

/-- Claim C3 as amended: for every valid message payload whose provider
message id is truthy (present and non-zero), processing the identical
payload twice stores exactly one message document, both runs writing to
the same id str(messageId) via upsert; the final document is the one
built by the second run (last-write-wins), the id-less insert path is
never taken, and when the two runs see the same clock the message store
after the second run equals the store after the first. -/
theorem c3_message_store_idempotent (wd : WebhookData) (tt : TrafficType)
    (ms : MessagesStore) (cs : ConvStore) (now1 now2 : Int)
    (hguard : ((((wd.contact.getD Contact.empty).phone.getD "") == "") &&
      pyFalsyId (wd.contact.getD Contact.empty).id) = false)
    (hmid : truthyInt (wd.message.getD MessagePart.empty).messageId = true)
    (hfresh : countKey ms.keyed
      (strOfOptInt (wd.message.getD MessagePart.empty).messageId) = 0) :
    countKey (process_webhook wd tt ms cs now1).messages.keyed
      (strOfOptInt (wd.message.getD MessagePart.empty).messageId) = 1 ∧
    countKey
      (process_webhook wd tt (process_webhook wd tt ms cs now1).messages
        (process_webhook wd tt ms cs now1).convs now2).messages.keyed
      (strOfOptInt (wd.message.getD MessagePart.empty).messageId) = 1 ∧
    lookupKey
      (process_webhook wd tt (process_webhook wd tt ms cs now1).messages
        (process_webhook wd tt ms cs now1).convs now2).messages.keyed
      (strOfOptInt (wd.message.getD MessagePart.empty).messageId) =
      some (build_message_doc wd tt
        (derivedChatId (wd.contact.getD Contact.empty)) now2) ∧
    (process_webhook wd tt (process_webhook wd tt ms cs now1).messages
        (process_webhook wd tt ms cs now1).convs now2).messages.unkeyed =
      ms.unkeyed ∧
    (now1 = now2 →
      (process_webhook wd tt (process_webhook wd tt ms cs now1).messages
          (process_webhook wd tt ms cs now1).convs now2).messages =
        (process_webhook wd tt ms cs now1).messages) := by
  obtain ⟨hok1, hm1⟩ := process_webhook_messages wd tt ms cs now1 hguard hmid
  obtain ⟨hok2, hm2⟩ := process_webhook_messages wd tt
    (process_webhook wd tt ms cs now1).messages
    (process_webhook wd tt ms cs now1).convs now2 hguard hmid
  have hkeyed1 : (process_webhook wd tt ms cs now1).messages.keyed =
      upsertDoc ms.keyed
        (strOfOptInt (wd.message.getD MessagePart.empty).messageId)
        (build_message_doc wd tt
          (derivedChatId (wd.contact.getD Contact.empty)) now1) := by
    rw [hm1]
  have hcount1 : countKey (process_webhook wd tt ms cs now1).messages.keyed
      (strOfOptInt (wd.message.getD MessagePart.empty).messageId) = 1 := by
    rw [hkeyed1, countKey_upsertDoc, if_pos hfresh]
  refine ⟨hcount1, ?_, ?_, ?_, ?_⟩
  · rw [hm2]
    show countKey (upsertDoc _ _ _) _ = 1
    rw [countKey_upsertDoc, hcount1]
    simp
  · rw [hm2]
    exact lookupKey_upsertDoc _ _ _
  · rw [hm2]
    show (process_webhook wd tt ms cs now1).messages.unkeyed = ms.unkeyed
    rw [hm1]
  · intro hnow
    subst hnow
    rw [hm2, hm1]
    congr 1
    exact upsertDoc_idem _ _ _

/-- A concrete incoming text-message payload with message id 77, used as
the witness input for claim C3. -/
def wdMsgC3 : WebhookData :=
  { WebhookData.empty with
    contact := some { Contact.empty with id := some 5, phone := some "p1" }
    message := some { MessagePart.empty with
      messageId := some 77
      timestamp := some 1000
      message := some { InnerMessage.empty with type := some "text" } } }

/-- Witness for claim C3: processing wdMsgC3 twice from empty stores leaves
exactly one stored message document under id "77". -/
theorem c3_message_store_idempotent_witness :
    ((((wdMsgC3.contact.getD Contact.empty).phone.getD "") == "") &&
      pyFalsyId (wdMsgC3.contact.getD Contact.empty).id) = false ∧
    truthyInt (wdMsgC3.message.getD MessagePart.empty).messageId = true ∧
    countKey
      (process_webhook wdMsgC3 TrafficType.incoming
        (process_webhook wdMsgC3 TrafficType.incoming MessagesStore.empty
          emptyConvStore 3).messages
        (process_webhook wdMsgC3 TrafficType.incoming MessagesStore.empty
          emptyConvStore 3).convs 3).messages.keyed
      (strOfOptInt (wdMsgC3.message.getD MessagePart.empty).messageId) =
      1 :=
  ⟨by decide, by decide,
    (c3_message_store_idempotent wdMsgC3 TrafficType.incoming
      MessagesStore.empty emptyConvStore 3 3 (by decide) (by decide)
      (by decide)).2.1⟩

/-! ## Claim C5: lifecycle events touch only lifecycle and updated_at -/

/-- Claim C5: for a lifecycle event whose identity guard passes (so a
conversation key is derived), the processing reports success; when a
conversation exists at the derived key, the update sets only
contact.lifecycle and updated_at, leaving every other conversation field
unchanged; when none exists, no conversation document changes and the
outcome is observable as no matching conversation, while the operation
still reports success; conversations at other keys are never touched. -/
theorem c5_lifecycle_update_frame (contacts : ContactsStore)
    (convs : ConvStore) (wd : WebhookData) (now : Int) (key : String)
    (hkey : (process_lifecycle_update contacts convs wd now).chatKey =
      some key) :
    (process_lifecycle_update contacts convs wd now).ok = true ∧
    (∀ doc0, convs key = some doc0 →
      (process_lifecycle_update contacts convs wd now).convMatched = true ∧
      (process_lifecycle_update contacts convs wd now).convs key =
        some { doc0 with
          updated_at := now
          contact :=
            { doc0.contact with lifecycle := some wd.lifecycle } }) ∧
    (convs key = none →
      (process_lifecycle_update contacts convs wd now).convMatched =
        false ∧
      ∀ k, (process_lifecycle_update contacts convs wd now).convs k =
        convs k) ∧
    (∀ k, k ≠ key →
      (process_lifecycle_update contacts convs wd now).convs k =
        convs k) := by
  by_cases hg : (pyFalsyId (wd.contact.getD Contact.empty).id &&
      (((wd.contact.getD Contact.empty).phone.getD "") == "")) = true
  · exfalso
    unfold process_lifecycle_update at hkey
    simp [hg] at hkey
  · have hg' := eq_false_of_ne_true hg
    unfold process_lifecycle_update at hkey ⊢
    simp only [hg', Bool.false_eq_true, if_false] at hkey ⊢
    have hkeyEq :
        (if ((wd.contact.getD Contact.empty).phone.getD "") = "" then
          strOfOptInt (wd.contact.getD Contact.empty).id
        else (wd.contact.getD Contact.empty).phone.getD "") = key := by
      simpa using hkey
    subst hkeyEq
    refine ⟨trivial, ?_, ?_, ?_⟩
    · intro doc0 h0
      constructor
      · simp [h0]
      · simp [h0]
    · intro h0
      constructor
      · simp [h0]
      · intro k
        simp only [h0]
        by_cases hk2 : k =
            (if ((wd.contact.getD Contact.empty).phone.getD "") = "" then
              strOfOptInt (wd.contact.getD Contact.empty).id
            else (wd.contact.getD Contact.empty).phone.getD "")
        · rw [if_pos hk2, hk2]
          exact h0.symm
        · rw [if_neg hk2]
    · intro k hk
      simp [hk]

/-- A concrete existing conversation document used by several witnesses. -/
def sampleConvDoc : ConversationDoc :=
  { created_at := 1
    first_message_ts := 10
    last_message_ts := 20
    message_count := 3
    media_counts := [("image", 2)]
    updated_at := 2
    channel := ["wa"]
    contact :=
      { id := some 5, firstName := some "A", lastName := none
        email := none, phone := some "123", language := none
        profilePic := none, countryCode := none, status := none
        lifecycle := none }
    channel_info :=
      { id := some 9, name := some "wa", source := none
        lastMessageTime := none, lastIncomingMessageTime := none }
    assignee := none }

/-- A conversations store holding sampleConvDoc under key "123". -/
def sampleConvs : ConvStore :=
  fun k => if k = "123" then some sampleConvDoc else none

/-- A concrete lifecycle event payload for contact id 5, phone "123". -/
def sampleLcEvent : WebhookData :=
  { WebhookData.empty with
    contact := some { Contact.empty with id := some 5, phone := some "123" }
    event_type := some "contact.lifecycle.updated"
    event_id := some "e1"
    lifecycle := some "customer"
    oldLifecycle := some "lead" }

/-- Witness for claim C5: the sample lifecycle event applied over an
existing conversation at key "123" matches and reports success. -/
theorem c5_lifecycle_update_frame_witness :
    (process_lifecycle_update emptyContactsStore sampleConvs sampleLcEvent
      7).chatKey = some "123" ∧
    sampleConvs "123" = some sampleConvDoc ∧
    (process_lifecycle_update emptyContactsStore sampleConvs sampleLcEvent
      7).convMatched = true :=
  ⟨rfl, rfl,
    ((c5_lifecycle_update_frame emptyContactsStore sampleConvs sampleLcEvent
      7 "123" rfl).2.1 sampleConvDoc rfl).1⟩

/-! ## Claim C4: lifecycle survives message-driven updates -/

/-- The conversation document written by a matched lifecycle update: only
updated_at and contact.lifecycle change (helper shared by claims). -/
theorem plu_existing_conv (contacts : ContactsStore) (convs : ConvStore)
    (wd : WebhookData) (now : Int) (key : String)
    (doc0 : ConversationDoc)
    (hkey : (process_lifecycle_update contacts convs wd now).chatKey =
      some key)
    (hpre : convs key = some doc0) :
    (process_lifecycle_update contacts convs wd now).convs key =
      some { doc0 with
        updated_at := now
        contact := { doc0.contact with lifecycle := some wd.lifecycle } } := by
  by_cases hg : (pyFalsyId (wd.contact.getD Contact.empty).id &&
      (((wd.contact.getD Contact.empty).phone.getD "") == "")) = true
  · exfalso
    unfold process_lifecycle_update at hkey
    simp [hg] at hkey
  · have hg' := eq_false_of_ne_true hg
    unfold process_lifecycle_update at hkey ⊢
    simp only [hg', Bool.false_eq_true, if_false] at hkey ⊢
    have hkeyEq :
        (if ((wd.contact.getD Contact.empty).phone.getD "") = "" then
          strOfOptInt (wd.contact.getD Contact.empty).id
        else (wd.contact.getD Contact.empty).phone.getD "") = key := by
      simpa using hkey
    subst hkeyEq
    simp [hpre]

/-- Claim C4: once a matched lifecycle event has set the conversation's
contact.lifecycle, a subsequently applied message delta overwrites the
contact-profile fields with the delta's snapshot but carries the existing
lifecycle value over, so message ingestion never erases it. -/
theorem c4_lifecycle_survives_message_update (contacts : ContactsStore)
    (convs : ConvStore) (wd : WebhookData) (now : Int) (key : String)
    (doc0 : ConversationDoc)
    (hkey : (process_lifecycle_update contacts convs wd now).chatKey =
      some key)
    (hpre : convs key = some doc0)
    (c : Contact) (ch : Channel) (mt : Option String) (ts : Option Int)
    (n2 : Int) :
    ((update_conversation
        (process_lifecycle_update contacts convs wd now).convs key
        c ch mt ts n2) key).map (fun d => d.contact.lifecycle) =
      some (some wd.lifecycle) ∧
    (∀ (cstore : ConvStore) (k : String) (d0 : ConversationDoc),
      cstore k = some d0 →
      ∀ (c2 : Contact) (ch2 : Channel) (mt2 : Option String)
        (ts2 : Option Int) (n3 : Int),
        ((update_conversation cstore k c2 ch2 mt2 ts2 n3) k).map
          (fun d => d.contact.lifecycle) = some d0.contact.lifecycle) := by
  constructor
  · have hconv := plu_existing_conv contacts convs wd now key doc0 hkey hpre
    have e := update_conversation_at_existing
      (process_lifecycle_update contacts convs wd now).convs key c ch mt ts
      n2 _ hconv
    rw [e]
    simp [applyMessageDelta]
  · intro cstore k d0 h0 c2 ch2 mt2 ts2 n3
    have e := update_conversation_at_existing cstore k c2 ch2 mt2 ts2 n3
      _ h0
    rw [e]
    simp [applyMessageDelta]

/-- Witness for claim C4: after the sample lifecycle event sets lifecycle
"customer" on the conversation at "123", a message delta leaves that
lifecycle in place. -/
theorem c4_lifecycle_survives_message_update_witness :
    (process_lifecycle_update emptyContactsStore sampleConvs sampleLcEvent
      7).chatKey = some "123" ∧
    sampleConvs "123" = some sampleConvDoc ∧
    ((update_conversation
        (process_lifecycle_update emptyContactsStore sampleConvs
          sampleLcEvent 7).convs "123"
        Contact.empty Channel.empty none (some 999) 8) "123").map
      (fun d => d.contact.lifecycle) = some (some (some "customer")) :=
  ⟨rfl, rfl,
    (c4_lifecycle_survives_message_update emptyContactsStore sampleConvs
      sampleLcEvent 7 "123" sampleConvDoc rfl rfl Contact.empty
      Channel.empty none (some 999) 8).1⟩

/-! ## Claim C9: append-only lifecycle history -/

theorem getLast?_append_one {α : Type} (l : List α) (a : α) :
    (l ++ [a]).getLast? = some a := by
  induction l with
  | nil => rfl
  | cons x xs ih =>
    cases xs with
    | nil => rfl
    | cons y ys =>
      simpa [List.cons_append, List.getLast?] using ih

/-- Claim C9: every processed lifecycle event appends exactly one history
entry from oldLifecycle to lifecycle with the clock timestamp and the
event id, rewrites or reorders no existing entry, leaves every other
contact document untouched, and leaves the contact's lifecycle field
equal to the to-value of the most recently appended history entry. -/
theorem c9_lifecycle_history_append (contacts : ContactsStore)
    (convs : ConvStore) (wd : WebhookData) (now : Int)
    (hok : (process_lifecycle_update contacts convs wd now).ok = true) :
    ∃ newdoc,
      (process_lifecycle_update contacts convs wd now).contacts
        (strOfOptInt (wd.contact.getD Contact.empty).id) = some newdoc ∧
      newdoc.lifecycle_history =
        (((contacts (strOfOptInt (wd.contact.getD Contact.empty).id)).map
          ContactDoc.lifecycle_history).getD []) ++
          [{ fromL := wd.oldLifecycle, toL := wd.lifecycle
             timestamp := now, event_id := wd.event_id }] ∧
      newdoc.lifecycle = wd.lifecycle ∧
      newdoc.lifecycle_history.getLast?.map LifecycleChange.toL =
        some newdoc.lifecycle ∧
      (∀ k, k ≠ strOfOptInt (wd.contact.getD Contact.empty).id →
        (process_lifecycle_update contacts convs wd now).contacts k =
          contacts k) := by
  by_cases hg : (pyFalsyId (wd.contact.getD Contact.empty).id &&
      (((wd.contact.getD Contact.empty).phone.getD "") == "")) = true
  · exfalso
    unfold process_lifecycle_update at hok
    simp [hg] at hok
  · have hg' := eq_false_of_ne_true hg
    unfold process_lifecycle_update
    simp only [hg', Bool.false_eq_true, if_false]
    apply Exists.intro
    refine ⟨?_, ?_, ?_, ?_, ?_⟩
    · exact if_pos trivial
    · rfl
    · rfl
    · show ((((contacts
          (strOfOptInt (wd.contact.getD Contact.empty).id)).map
            ContactDoc.lifecycle_history).getD []) ++
        [({ fromL := wd.oldLifecycle, toL := wd.lifecycle
            timestamp := now, event_id := wd.event_id } :
          LifecycleChange)]).getLast?.map
        LifecycleChange.toL = some wd.lifecycle
      rw [getLast?_append_one]
      rfl
    · intro k hk
      simp [hk]

/-- Witness for claim C9: the sample lifecycle event on an empty contacts
store creates contact "5" with exactly one history entry from "lead" to
"customer". -/
theorem c9_lifecycle_history_append_witness :
    (process_lifecycle_update emptyContactsStore sampleConvs sampleLcEvent
      7).ok = true ∧
    ∃ newdoc,
      (process_lifecycle_update emptyContactsStore sampleConvs sampleLcEvent
        7).contacts "5" = some newdoc ∧
      newdoc.lifecycle_history =
        [{ fromL := some "lead", toL := some "customer"
           timestamp := 7, event_id := some "e1" }] ∧
      newdoc.lifecycle = some "customer" :=
  ⟨rfl, by
    obtain ⟨newdoc, h1, h2, h3, _, _⟩ :=
      c9_lifecycle_history_append emptyContactsStore sampleConvs
        sampleLcEvent 7 rfl
    exact ⟨newdoc, h1, by simpa using h2, h3⟩⟩

/-! ## Claim C7: identity guard and conversation key -/

/-- A payload whose contact id is present but zero and whose phone is
empty, used to refute claim C7. -/
def wdZeroIdC7 : WebhookData :=
  { WebhookData.empty with
    contact := some { Contact.empty with id := some 0, phone := some "" } }

/-- Claim C7 counterexample: the claim says processing fails only when the
contact id is absent (and the phone empty), but a payload carrying the
present contact id 0 with an empty phone is dropped by both the message
and the lifecycle path, because the code tests Python truthiness (0 is
falsy), not presence. -/
theorem c7_counterexample :
    (wdZeroIdC7.contact.getD Contact.empty).id = some 0 ∧
    (process_webhook wdZeroIdC7 TrafficType.incoming MessagesStore.empty
      emptyConvStore 0).ok = false ∧
    (process_lifecycle_update emptyContactsStore emptyConvStore wdZeroIdC7
      0).ok = false := by decide

/-- Claim C7 as amended: for every message or lifecycle payload, processing
fails (the event is dropped, returning False) if and only if the contact
phone is empty or absent AND the contact id is absent or falsy (null or
the integer 0); otherwise the conversation key equals the phone number
when non-empty, else the stringified contact id. -/
theorem c7_amended (wd : WebhookData) (tt : TrafficType)
    (ms : MessagesStore) (cs : ConvStore) (cts : ContactsStore)
    (cs2 : ConvStore) (now : Int) :
    ((process_webhook wd tt ms cs now).ok = false ↔
      ((wd.contact.getD Contact.empty).phone.getD "" = "" ∧
        ((wd.contact.getD Contact.empty).id = none ∨
          (wd.contact.getD Contact.empty).id = some 0))) ∧
    ((process_lifecycle_update cts cs2 wd now).ok = false ↔
      ((wd.contact.getD Contact.empty).phone.getD "" = "" ∧
        ((wd.contact.getD Contact.empty).id = none ∨
          (wd.contact.getD Contact.empty).id = some 0))) ∧
    ((process_webhook wd tt ms cs now).chatKey =
      if ((wd.contact.getD Contact.empty).phone.getD "" = "" ∧
          ((wd.contact.getD Contact.empty).id = none ∨
            (wd.contact.getD Contact.empty).id = some 0)) then none
      else some (derivedChatId (wd.contact.getD Contact.empty))) ∧
    ((process_lifecycle_update cts cs2 wd now).chatKey =
      if ((wd.contact.getD Contact.empty).phone.getD "" = "" ∧
          ((wd.contact.getD Contact.empty).id = none ∨
            (wd.contact.getD Contact.empty).id = some 0)) then none
      else some (derivedChatId (wd.contact.getD Contact.empty))) := by
  have hiff : ((((wd.contact.getD Contact.empty).phone.getD "") == "") &&
      pyFalsyId (wd.contact.getD Contact.empty).id) = true ↔
      ((wd.contact.getD Contact.empty).phone.getD "" = "" ∧
        ((wd.contact.getD Contact.empty).id = none ∨
          (wd.contact.getD Contact.empty).id = some 0)) := by
    cases hid : (wd.contact.getD Contact.empty).id with
    | none => simp [pyFalsyId, hid]
    | some n => simp [pyFalsyId, hid]
  by_cases hP : ((wd.contact.getD Contact.empty).phone.getD "" = "" ∧
      ((wd.contact.getD Contact.empty).id = none ∨
        (wd.contact.getD Contact.empty).id = some 0))
  · have hb := hiff.mpr hP
    have hb2 : (pyFalsyId (wd.contact.getD Contact.empty).id &&
        (((wd.contact.getD Contact.empty).phone.getD "") == "")) = true := by
      rw [Bool.and_comm]
      exact hb
    have hid : pyFalsyId (wd.contact.getD Contact.empty).id = true := by
      have h := hb
      rw [Bool.and_eq_true] at h
      exact h.2
    unfold process_webhook process_webhook_x noFaults
      process_lifecycle_update
    simp [hb, hb2, hid, hP]
  · have hb : ((((wd.contact.getD Contact.empty).phone.getD "") == "") &&
        pyFalsyId (wd.contact.getD Contact.empty).id) = false :=
      eq_false_of_ne_true (fun h => hP (hiff.mp h))
    have hb2 : (pyFalsyId (wd.contact.getD Contact.empty).id &&
        (((wd.contact.getD Contact.empty).phone.getD "") == "")) =
        false := by
      rw [Bool.and_comm]
      exact hb
    unfold process_webhook process_webhook_x noFaults
      process_lifecycle_update derivedChatId
    simp [hb, hb2, hP]

/-! ## Claim C10: conversation faults never fail the task -/

/-- Claim C10: update_conversation catches every store exception internally,
so for every payload passing the identity guard the task succeeds (and is
fed to the breaker as a success) whenever the message write succeeds,
regardless of conversation read/write faults; only a fault at the message
write makes the task count as a failure, leaving the message store
untouched. -/
theorem c10_conv_faults_do_not_fail_task (wd : WebhookData)
    (tt : TrafficType) (ms : MessagesStore) (cs : ConvStore) (now : Int)
    (b : Breaker) (bn : Int) (cr cw : Bool)
    (hguard : ((((wd.contact.getD Contact.empty).phone.getD "") == "") &&
      pyFalsyId (wd.contact.getD Contact.empty).id) = false) :
    (process_webhook_x
      { msgWriteFails := false, convReadFails := cr, convWriteFails := cw }
      wd tt ms cs now).ok = true ∧
    worker_outcome
      (process_webhook_x
        { msgWriteFails := false, convReadFails := cr
          convWriteFails := cw } wd tt ms cs now).ok b bn =
      record_success b ∧
    (process_webhook_x
      { msgWriteFails := true, convReadFails := cr, convWriteFails := cw }
      wd tt ms cs now).ok = false ∧
    worker_outcome
      (process_webhook_x
        { msgWriteFails := true, convReadFails := cr
          convWriteFails := cw } wd tt ms cs now).ok b bn =
      record_failure b bn ∧
    (process_webhook_x
      { msgWriteFails := true, convReadFails := cr, convWriteFails := cw }
      wd tt ms cs now).messages = ms := by
  have hok : (process_webhook_x
      { msgWriteFails := false, convReadFails := cr, convWriteFails := cw }
      wd tt ms cs now).ok = true := by
    unfold process_webhook_x
    simp [hguard]
  have hko : (process_webhook_x
      { msgWriteFails := true, convReadFails := cr, convWriteFails := cw }
      wd tt ms cs now).ok = false := by
    unfold process_webhook_x
    simp [hguard]
  have hms : (process_webhook_x
      { msgWriteFails := true, convReadFails := cr, convWriteFails := cw }
      wd tt ms cs now).messages = ms := by
    unfold process_webhook_x
    simp [hguard]
  refine ⟨hok, ?_, hko, ?_, hms⟩
  · rw [hok]
    simp [worker_outcome]
  · rw [hko]
    simp [worker_outcome]

/-- Witness for claim C10: the concrete payload wdMsgC3 with both
conversation-side faults raised still reports success, while a
message-write fault reports failure. -/
theorem c10_conv_faults_do_not_fail_task_witness :
    ((((wdMsgC3.contact.getD Contact.empty).phone.getD "") == "") &&
      pyFalsyId (wdMsgC3.contact.getD Contact.empty).id) = false ∧
    (process_webhook_x
      { msgWriteFails := false, convReadFails := true
        convWriteFails := true } wdMsgC3 TrafficType.incoming
      MessagesStore.empty emptyConvStore 3).ok = true ∧
    (process_webhook_x
      { msgWriteFails := true, convReadFails := true
        convWriteFails := true } wdMsgC3 TrafficType.incoming
      MessagesStore.empty emptyConvStore 3).ok = false :=
  ⟨by decide,
    (c10_conv_faults_do_not_fail_task wdMsgC3 TrafficType.incoming
      MessagesStore.empty emptyConvStore 3 Breaker.init 0 true true
      (by decide)).1,
    (c10_conv_faults_do_not_fail_task wdMsgC3 TrafficType.incoming
      MessagesStore.empty emptyConvStore 3 Breaker.init 0 true true
      (by decide)).2.2.1⟩
